import Mathlib

/-!
Shallow embedding of the mcp-meta-mind task manager core
(src/src/taskManagerServer.ts and the TaskRepository in src/src/migration.ts,
SQLite backend), together with theorems settling the frozen claims about it.

Modelling conventions:
* Task and request ids are strings of the form "task-N" / "req-N" in the
  source, generated from monotone counters; the formatting is injective, so
  ids are modelled by their numeric index (Nat).
* ISO-8601 timestamps are modelled by Nat instants; lexicographic order on
  ISO strings of a monotone clock agrees with numeric order.
* The SQLite database is modelled by an explicit record of tables; a SQL
  UPDATE ... WHERE taskId = ? is a map over the task table guarded by the id,
  returning the number of affected rows, exactly as better-sqlite3 reports it.
* JavaScript truthiness of optional strings (undefined and "" are falsy) is
  modelled by explicit helpers.
* Thrown NotFoundError / InvalidOperationError are modelled by Except.
* Human-readable message strings are reproduced where control flow depends on
  them (the cascade's messageAugmentation); purely cosmetic renderings such as
  the task progress table are elided.
-/

namespace MetaMind

/-- Task statuses of the SQLite backend (src/unnamed/part_003, interfaces.ts).
Note there is no "split" status in this enum. -/
inductive TaskStatus where
  | pending
  | active
  | done
  | failed
  | requiresClarification
deriving DecidableEq, Repr

/-- Task priorities (interfaces.ts). -/
inductive TaskPriority where
  | low
  | medium
  | high
  | critical
deriving DecidableEq, Repr

/-- Task types (interfaces.ts). Opaque routing hints. -/
inductive TaskType where
  | code
  | debugT
  | testT
  | plan
  | refactor
  | documentation
  | research
  | generic
deriving DecidableEq, Repr

/-- A live task row, as read back by TaskRepository.rowToTask. The requestId
column of the tasks table is carried on the task itself. -/
structure Task where
  id : Nat
  requestId : Nat
  parentId : Option Nat := none
  title : String
  description : String := ""
  status : TaskStatus
  priority : TaskPriority := .medium
  type : Option TaskType := none
  dependsOn : List Nat := []
  subtaskIds : List Nat := []
  failureReason : Option String := none
  suggestedRetryStrategy : Option String := none
  completedDetails : Option String := none
  artifactsGenerated : List String := []
  environmentContext : Option String := none
  summaryFilePath : Option String := none
  createdAt : Nat
  updatedAt : Nat
deriving DecidableEq, Repr

/-- A row of the requests table. -/
structure RequestRow where
  requestId : Nat
  originalRequest : String
  splitDetails : String := ""
  completed : Bool := false
  createdAt : Nat
  updatedAt : Nat
deriving DecidableEq, Repr

/-- A row of the archived_tasks table: the task snapshot plus provenance. -/
structure ArchivedTask where
  task : Task
  originalRequestId : Nat
  originalRequestText : String
  archivedAt : Nat
deriving DecidableEq, Repr

/-- The database state: metadata counters and the three tables. The tasks
list is kept in insertion (rowid) order. -/
structure Db where
  lastRequestId : Nat := 0
  lastTaskId : Nat := 0
  requests : List RequestRow := []
  tasks : List Task := []
  archivedTasks : List ArchivedTask := []
deriving DecidableEq, Repr

/-- The RequestEntry object built by TaskRepository.rowToRequest: the request
row together with the tasks of the request. -/
structure RequestView where
  requestId : Nat
  originalRequest : String
  splitDetails : String
  tasks : List Task
  completed : Bool
  createdAt : Nat
  updatedAt : Nat
deriving DecidableEq, Repr

/-- Models the JS expression a OR b on an optional string where the result is
used as a string: undefined and the empty string are falsy. -/
def jsOrDefault (a : Option String) (b : String) : String :=
  match a with
  | some s => if s = "" then b else s
  | none => b

/-- Models the JS expression s OR null stored into a nullable column:
undefined and the empty string collapse to NULL. -/
def jsStrOrNull : Option String → Option String
  | some s => if s = "" then none else some s
  | none => none

/-- Models the JS expression a OR b on two optional strings. -/
def jsOrElseStr (a b : Option String) : Option String :=
  match a with
  | some s => if s = "" then b else some s
  | none => b

/-! ### TaskRepository (second document of src/src/migration.ts) -/

/-- TaskRepository.getNextTaskId: increments the persisted lastTaskId counter
and returns the fresh id (rendered as "task-N" in the source). -/
def dbGetNextTaskId (db : Db) : Db × Nat :=
  let nextId := db.lastTaskId + 1
  ({ db with lastTaskId := nextId }, nextId)

/-- TaskRepository.getNextRequestId. -/
def dbGetNextRequestId (db : Db) : Db × Nat :=
  let nextId := db.lastRequestId + 1
  ({ db with lastRequestId := nextId }, nextId)

/-- TaskRepository.createRequest. -/
def dbCreateRequest (db : Db) (originalRequest splitDetails : String) (now : Nat) :
    Db × Nat :=
  let (db1, requestId) := dbGetNextRequestId db
  ({ db1 with requests := db1.requests ++
      [{ requestId := requestId, originalRequest := originalRequest,
         splitDetails := splitDetails, completed := false,
         createdAt := now, updatedAt := now }] },
   requestId)

/-- TaskRepository.createTask: INSERT INTO tasks, with the requestId column
taken from the explicit argument. -/
def dbCreateTask (db : Db) (task : Task) (requestId : Nat) : Db :=
  { db with tasks := db.tasks ++ [{ task with requestId := requestId }] }

/-- TaskRepository.findTaskById: SELECT * FROM tasks WHERE taskId = ?
(first matching row). -/
def dbFindTaskById (db : Db) (taskId : Nat) : Option Task :=
  db.tasks.find? (fun t => t.id == taskId)

/-- Stable insertion by createdAt: the new element goes after every existing
element with a strictly smaller key and before the first element with an equal
or larger key, so that equal keys keep their original relative order. -/
def insertByCreatedAt (t : Task) : List Task → List Task
  | [] => [t]
  | u :: us =>
    if u.createdAt < t.createdAt then u :: insertByCreatedAt t us
    else t :: u :: us

/-- Stable sort by createdAt, modelling ORDER BY createdAt ASC (SQLite returns
rows with equal keys in rowid, i.e. insertion, order). -/
def sortByCreatedAt : List Task → List Task
  | [] => []
  | t :: ts => insertByCreatedAt t (sortByCreatedAt ts)

/-- TaskRepository.findTasksByRequestId:
SELECT * FROM tasks WHERE requestId = ? ORDER BY createdAt ASC. -/
def dbFindTasksByRequestId (db : Db) (requestId : Nat) : List Task :=
  sortByCreatedAt (db.tasks.filter (fun t => t.requestId == requestId))

/-- TaskRepository.findRequestById: the request row joined with the tasks of
the request (rowToRequest). -/
def dbFindRequestById (db : Db) (requestId : Nat) : Option RequestView :=
  match db.requests.find? (fun r => r.requestId == requestId) with
  | none => none
  | some row =>
    some { requestId := row.requestId, originalRequest := row.originalRequest,
           splitDetails := row.splitDetails,
           tasks := dbFindTasksByRequestId db requestId,
           completed := row.completed,
           createdAt := row.createdAt, updatedAt := row.updatedAt }

/-- TaskRepository.updateRequestCompletion: UPDATE requests SET completed = ?,
updatedAt = now WHERE requestId = ?; returns the number of affected rows. -/
def dbUpdateRequestCompletion (db : Db) (requestId : Nat) (completed : Bool)
    (now : Nat) : Db × Nat :=
  ({ db with requests := db.requests.map (fun r =>
      if r.requestId == requestId then
        { r with completed := completed, updatedAt := now }
      else r) },
   (db.requests.filter (fun r => r.requestId == requestId)).length)

/-- TaskRepository.updateTaskStatus: UPDATE tasks SET status, completedDetails
(overwritten, NULL when absent or empty), updatedAt WHERE taskId = ?. -/
def dbUpdateTaskStatus (db : Db) (taskId : Nat) (status : TaskStatus)
    (completedDetails : Option String) (now : Nat) : Db × Nat :=
  ({ db with tasks := db.tasks.map (fun t =>
      if t.id == taskId then
        { t with status := status,
                 completedDetails := jsStrOrNull completedDetails,
                 updatedAt := now }
      else t) },
   (db.tasks.filter (fun t => t.id == taskId)).length)

/-- TaskRepository.updateTaskFailure: sets status to failed together with the
failure metadata. -/
def dbUpdateTaskFailure (db : Db) (taskId : Nat) (failureReason : String)
    (suggestedRetryStrategy : Option String) (now : Nat) : Db × Nat :=
  ({ db with tasks := db.tasks.map (fun t =>
      if t.id == taskId then
        { t with status := .failed,
                 failureReason := some failureReason,
                 suggestedRetryStrategy := jsStrOrNull suggestedRetryStrategy,
                 updatedAt := now }
      else t) },
   (db.tasks.filter (fun t => t.id == taskId)).length)

/-- The updates object accepted by TaskRepository.updateTask. The repository
builds SET clauses only for the seven fields below; artifactsGenerated and
suggestedRetryStrategy may arrive from callers but match no clause and are
silently ignored, exactly as in the source. -/
structure TaskUpdates where
  title : Option String := none
  description : Option String := none
  priority : Option TaskPriority := none
  type : Option TaskType := none
  dependsOn : Option (List Nat) := none
  subtaskIds : Option (List Nat) := none
  environmentContext : Option String := none
  artifactsGenerated : Option (List String) := none
  suggestedRetryStrategy : Option String := none
deriving DecidableEq, Repr

/-- True when none of the seven handled fields is present, in which case
TaskRepository.updateTask returns 0 without touching the database. -/
def TaskUpdates.noHandledFields (u : TaskUpdates) : Bool :=
  u.title.isNone && u.description.isNone && u.priority.isNone &&
  u.type.isNone && u.dependsOn.isNone && u.subtaskIds.isNone &&
  u.environmentContext.isNone

/-- Applies the handled SET clauses of TaskRepository.updateTask to one row.
An empty environmentContext string is stored and read back as NULL/undefined
(rowToTask maps falsy strings to undefined). -/
def applyTaskUpdates (u : TaskUpdates) (t : Task) (now : Nat) : Task :=
  { t with
    title := u.title.getD t.title,
    description := u.description.getD t.description,
    priority := u.priority.getD t.priority,
    type := match u.type with | some ty => some ty | none => t.type,
    dependsOn := u.dependsOn.getD t.dependsOn,
    subtaskIds := u.subtaskIds.getD t.subtaskIds,
    environmentContext :=
      match u.environmentContext with
      | some e => jsStrOrNull (some e)
      | none => t.environmentContext,
    updatedAt := now }

/-- TaskRepository.updateTask: returns 0 when no handled field is present,
otherwise applies the SET clauses to the rows matching the id and returns the
number of affected rows. -/
def dbUpdateTask (db : Db) (taskId : Nat) (u : TaskUpdates) (now : Nat) :
    Db × Nat :=
  if u.noHandledFields then (db, 0)
  else
    ({ db with tasks := db.tasks.map (fun t =>
        if t.id == taskId then applyTaskUpdates u t now else t) },
     (db.tasks.filter (fun t => t.id == taskId)).length)

/-- Saturation of the set of rows removed by ON DELETE CASCADE: database.ts
opens the connection with PRAGMA foreign_keys = ON and the tasks table
declares FOREIGN KEY (parentId) REFERENCES tasks(taskId) ON DELETE CASCADE,
so deleting a row recursively deletes every row whose parentId chain reaches
it. Each round marks the rows whose parentId names an already-dead id; the
fuel bounds the rounds, and one round per table row reaches the fixpoint. -/
def cascadeClosure (tasks : List Task) : Nat → List Nat → List Nat
  | 0, dead => dead
  | fuel + 1, dead =>
    let extra := (tasks.filter (fun t =>
      !(dead.contains t.id) &&
      (match t.parentId with
       | some p => dead.contains p
       | none => false))).map Task.id
    if extra.isEmpty then dead
    else cascadeClosure tasks fuel (dead ++ extra)

/-- TaskRepository.deleteTask: DELETE FROM tasks WHERE taskId = ?. The direct
deletion triggers the parentId ON DELETE CASCADE of the schema, removing in
addition every task whose parent chain reaches the deleted row;
better-sqlite3's result.changes counts only the rows deleted by the statement
itself, not the cascade victims. -/
def dbDeleteTask (db : Db) (taskId : Nat) : Db × Nat :=
  let direct := db.tasks.filter (fun t => t.id == taskId)
  let deadIds := cascadeClosure db.tasks db.tasks.length (direct.map Task.id)
  ({ db with tasks := db.tasks.filter (fun t => !(deadIds.contains t.id)) },
   direct.length)

/-- TaskRepository.addDependency: re-reads the task, and appends the
dependency id to its dependsOn list unless already present. There is no
self-dependency or cycle check at this level. -/
def dbAddDependency (db : Db) (taskId dependencyId : Nat) (now : Nat) :
    Db × Nat :=
  match dbFindTaskById db taskId with
  | none => (db, 0)
  | some task =>
    if dependencyId ∈ task.dependsOn then (db, 0)
    else
      let newDeps := task.dependsOn ++ [dependencyId]
      ({ db with tasks := db.tasks.map (fun t =>
          if t.id == taskId then
            { t with dependsOn := newDeps, updatedAt := now }
          else t) },
       (db.tasks.filter (fun t => t.id == taskId)).length)

/-- TaskRepository.addSubtask: appends the subtask id to the parent's
subtaskIds unless already present. -/
def dbAddSubtask (db : Db) (parentId subtaskId : Nat) (now : Nat) : Db × Nat :=
  match dbFindTaskById db parentId with
  | none => (db, 0)
  | some parent =>
    if subtaskId ∈ parent.subtaskIds then (db, 0)
    else
      let newSubs := parent.subtaskIds ++ [subtaskId]
      ({ db with tasks := db.tasks.map (fun t =>
          if t.id == parentId then
            { t with subtaskIds := newSubs, updatedAt := now }
          else t) },
       (db.tasks.filter (fun t => t.id == parentId)).length)

/-- TaskRepository.removeSubtask: removes the first occurrence of the subtask
id from the parent's subtaskIds if present. -/
def dbRemoveSubtask (db : Db) (parentId subtaskId : Nat) (now : Nat) :
    Db × Nat :=
  match dbFindTaskById db parentId with
  | none => (db, 0)
  | some parent =>
    if subtaskId ∈ parent.subtaskIds then
      let newSubs := parent.subtaskIds.erase subtaskId
      ({ db with tasks := db.tasks.map (fun t =>
          if t.id == parentId then
            { t with subtaskIds := newSubs, updatedAt := now }
          else t) },
       (db.tasks.filter (fun t => t.id == parentId)).length)
    else (db, 0)

/-- TaskRepository.archiveTaskTree: for each id in order, snapshot the task
into archived_tasks and delete it from the live table, counting successes.
Runs inside a transaction in the source. Since the ids arrive root-first and
deletion cascades through parentId, deleting the root removes its descendants
from the live table before their own iterations, which then find nothing:
only the root of a tree is actually archived. -/
def dbArchiveTaskTree (db : Db) (taskIds : List Nat)
    (originalRequestId : Nat) (originalRequestText : String) (now : Nat) :
    Db × Nat :=
  taskIds.foldl
    (fun (acc : Db × Nat) taskId =>
      match dbFindTaskById acc.1 taskId with
      | none => acc
      | some task =>
        let withArchive :=
          { acc.1 with archivedTasks := acc.1.archivedTasks ++
              [{ task := task, originalRequestId := originalRequestId,
                 originalRequestText := originalRequestText,
                 archivedAt := now }] }
        ((dbDeleteTask withArchive taskId).1, acc.2 + 1))
    (db, 0)

/-- TaskRepository.mergeTasks: deletes the old tasks, then creates the merged
task; transactional in the source. Deleting a merged-away task cascade-deletes
its subtasks through the parentId foreign key. -/
def dbMergeTasks (db : Db) (taskIds : List Nat) (mergedTask : Task)
    (requestId : Nat) : Db :=
  let afterDelete := taskIds.foldl (fun d i => (dbDeleteTask d i).1) db
  dbCreateTask afterDelete mergedTask requestId

/-! ### TaskManagerServer (src/src/taskManagerServer.ts) -/

/-- Thrown errors of the server layer. -/
inductive ServerError where
  | notFound (message : String)
  | invalidOperation (message : String)
deriving DecidableEq, Repr

/-- TaskManagerServer._getRequestEntryOrThrow. -/
def getRequestEntryOrThrow (db : Db) (requestId : Nat) :
    Except ServerError RequestView :=
  match dbFindRequestById db requestId with
  | some r => .ok r
  | none => .error (.notFound ("Request " ++ toString requestId ++ " not found."))

/-- TaskManagerServer._getTaskOrThrow: looks the task up inside the request
entry's task list. -/
def getTaskOrThrow (request : RequestView) (taskId : Nat) :
    Except ServerError Task :=
  match request.tasks.find? (fun t => t.id == taskId) with
  | some t => .ok t
  | none => .error (.notFound ("Task " ++ toString taskId ++
      " not found in request " ++ toString request.requestId ++ "."))

/-- TaskManagerServer._isTaskTreeFullyTerminal. The status of the root is read
from the Task object passed in (which a caller may hold stale); subtask
statuses are re-read from the database. The source recurses without a depth
guard; the fuel bounds the recursion and is always passed larger than any
acyclic subtask chain, so it is never exhausted on such inputs. -/
def isTaskTreeFullyTerminal (db : Db) : Nat → Task → Bool
  | 0, _ => false
  | fuel + 1, task =>
    if !(task.status == .done || task.status == .failed) then false
    else
      task.subtaskIds.all (fun subtaskId =>
        match dbFindTaskById db subtaskId with
        | none => false
        | some sub => isTaskTreeFullyTerminal db fuel sub)

/-- TaskManagerServer._collectTaskWithDescendants: pre-order collection of a
task and its descendants, skipping dangling subtask ids. Fuelled as above. -/
def collectTaskWithDescendants (db : Db) : Nat → Task → List Task
  | 0, task => [task]
  | fuel + 1, task =>
    task :: task.subtaskIds.flatMap (fun subtaskId =>
      match dbFindTaskById db subtaskId with
      | none => []
      | some sub => collectTaskWithDescendants db fuel sub)

/-- Fuel passed to the tree walks: strictly more than the number of live
tasks, hence more than the depth of any acyclic parent or subtask chain. -/
def treeFuel (db : Db) : Nat := db.tasks.length + 1

/-- TaskManagerServer._autoArchiveTaskTree: archives the tree rooted at the
given Task object when it is fully terminal, then marks the request completed
when no live tasks remain; returns the message augmentation ("" when nothing
was archived). Note the root's status is taken from the passed object. -/
def autoArchiveTaskTree (db : Db) (now requestId : Nat) (task : Task) :
    Except ServerError (Db × String) :=
  if !isTaskTreeFullyTerminal db (treeFuel db) task then .ok (db, "")
  else
    match getRequestEntryOrThrow db requestId with
    | .error e => .error e
    | .ok request =>
      let allTasksToArchive := collectTaskWithDescendants db (treeFuel db) task
      let taskIds := allTasksToArchive.map Task.id
      let (db1, archivedCount) :=
        dbArchiveTaskTree db taskIds requestId request.originalRequest now
      if archivedCount > 0 then
        let remainingTasks := dbFindTasksByRequestId db1 requestId
        let db2 :=
          if remainingTasks.isEmpty then
            (dbUpdateRequestCompletion db1 requestId true now).1
          else db1
        .ok (db2, " Task tree " ++ toString task.id ++ " and " ++
          toString archivedCount ++ " descendant(s) auto-archived.")
      else .ok (db1, "")

/-- TaskManagerServer._handleParentCompletion. Returns the new state, the
message augmentation and the treeCompletionStatus. The recursive call passes
the parent Task object fetched before its own status update, so its status
field still holds the pre-update value, exactly as in the source. -/
def handleParentCompletion (now requestId : Nat) :
    Nat → Db → Task → Except ServerError (Db × String × String)
  | 0, db, _ => .ok (db, "", "none")
  | fuel + 1, db, completedTask =>
    match completedTask.parentId with
    | none =>
      match autoArchiveTaskTree db now requestId completedTask with
      | .error e => .error e
      | .ok (db1, archiveMessage) =>
        let treeStatus := if archiveMessage ≠ "" then "archived" else "none"
        .ok (db1, archiveMessage, treeStatus)
    | some parentId =>
      match dbFindTaskById db parentId with
      | none => .ok (db, "", "none")
      | some parent =>
        let allSiblingsDone := parent.subtaskIds.all (fun siblingId =>
          match dbFindTaskById db siblingId with
          | some sibling => sibling.status == .done
          | none => false)
        if allSiblingsDone then
          let db1 := (dbUpdateTaskStatus db parent.id .done
            (some "All subtasks completed.") now).1
          match handleParentCompletion now requestId fuel db1 parent with
          | .error e => .error e
          | .ok (db2, grandMsg, grandStatus) =>
            let msg := " Parent task " ++ toString parent.id ++
              " auto-completed." ++ grandMsg
            .ok (db2, msg, if grandStatus ≠ "none" then grandStatus else "none")
        else .ok (db, "", "none")

/-- Result of markTaskDone (the taskProgress rendering is elided). -/
inductive MarkDoneResult where
  | alreadyDone
  | doneOk (message : String)
deriving DecidableEq, Repr

/-- TaskManagerServer.markTaskDone. -/
def markTaskDone (db : Db) (now requestId taskId : Nat)
    (completedDetails : Option String)
    (artifactsGenerated : Option (List String)) :
    Except ServerError (Db × MarkDoneResult) :=
  match getRequestEntryOrThrow db requestId with
  | .error e => .error e
  | .ok request =>
    match getTaskOrThrow request taskId with
    | .error e => .error e
    | .ok task =>
      if task.status == .done then .ok (db, .alreadyDone)
      else if task.status == .failed then
        .error (.invalidOperation "Task failed. Cannot mark as done.")
      else
        let db1 := (dbUpdateTaskStatus db taskId .done
          (some (jsOrDefault completedDetails "Completed successfully.")) now).1
        let db2 :=
          match artifactsGenerated with
          | some arts =>
            (dbUpdateTask db1 taskId { artifactsGenerated := some arts } now).1
          | none => db1
        match handleParentCompletion now requestId (treeFuel db2) db2 task with
        | .error e => .error e
        | .ok (db3, parentMsg, _) =>
          let remainingTasks := dbFindTasksByRequestId db3 requestId
          let allTasksTerminal := remainingTasks.all (fun t =>
            t.status == .done || t.status == .failed)
          let db4 :=
            if allTasksTerminal then
              (dbUpdateRequestCompletion db3 requestId true now).1
            else db3
          .ok (db4, .doneOk ("Task " ++ toString taskId ++ " marked done." ++
            parentMsg ++
            (if allTasksTerminal then " Request fully completed!" else "")))

/-- Result of markTaskFailed. -/
inductive MarkFailedResult where
  | alreadyFailed
  | failedOk (message : String)
deriving DecidableEq, Repr

/-- TaskManagerServer.markTaskFailed. Note: unlike markTaskDone, it invokes
no parent-completion or auto-archive logic and no request-completion check. -/
def markTaskFailed (db : Db) (now requestId taskId : Nat)
    (reason suggestedRetryStrategy : Option String) :
    Except ServerError (Db × MarkFailedResult) :=
  match getRequestEntryOrThrow db requestId with
  | .error e => .error e
  | .ok request =>
    match getTaskOrThrow request taskId with
    | .error e => .error e
    | .ok task =>
      if task.status == .done then
        .error (.invalidOperation "Task is already done. Cannot mark as failed.")
      else if task.status == .failed then .ok (db, .alreadyFailed)
      else
        let db1 := (dbUpdateTaskFailure db taskId
          (jsOrDefault reason "Task failed without specific reason.")
          suggestedRetryStrategy now).1
        let message := "Task " ++ toString taskId ++ " marked failed." ++
          (match reason with
           | some r => if r = "" then "" else " Reason: " ++ r
           | none => "") ++
          (match suggestedRetryStrategy with
           | some s => if s = "" then "" else " Retry strategy: " ++ s
           | none => "")
        .ok (db1, .failedOk message)

/-- Result of getNextTask, carrying the payload fields of the returned task
object (id, title, priority, type, status). -/
inductive NextTaskResult where
  | requestCompleted
  | nextTask (id : Nat) (title : String) (priority : TaskPriority)
      (type : Option TaskType) (status : TaskStatus)
  | noActionableTasks
deriving DecidableEq, Repr

/-- TaskManagerServer.getNextTask: scans the request's tasks in the order
returned by findTasksByRequestId (createdAt ascending) and returns the first
pending task all of whose dependencies resolve to done tasks. No priority or
status ranking is applied, and the database is not modified. -/
def getNextTask (db : Db) (requestId : Nat) :
    Except ServerError NextTaskResult :=
  match getRequestEntryOrThrow db requestId with
  | .error e => .error e
  | .ok request =>
    if request.completed then .ok .requestCompleted
    else
      let tasks := dbFindTasksByRequestId db requestId
      match tasks.find? (fun task =>
        task.status == .pending &&
        !(task.dependsOn.any (fun depId =>
          match dbFindTaskById db depId with
          | none => true
          | some depTask => !(depTask.status == .done)))) with
      | some task =>
        .ok (.nextTask task.id task.title task.priority task.type task.status)
      | none => .ok .noActionableTasks

/-- The parameter object of update_task (UpdateTaskSchema) minus the ids. -/
structure UpdateTaskParams where
  title : Option String := none
  description : Option String := none
  status : Option TaskStatus := none
  priority : Option TaskPriority := none
  type : Option TaskType := none
  dependsOn : Option (List Nat) := none
  artifactsGenerated : Option (List String) := none
  environmentContext : Option String := none
  suggestedRetryStrategy : Option String := none
deriving DecidableEq, Repr

/-- Result of updateTask. -/
inductive UpdateTaskResult where
  | noChanges
  | updated
deriving DecidableEq, Repr

/-- TaskManagerServer.updateTask: no status-machine or terminal-state check of
any kind; a provided status is written through updateTaskStatus (resetting
completedDetails), the remaining fields through the repository updateTask. -/
def updateTask (db : Db) (now requestId taskId : Nat)
    (params : UpdateTaskParams) :
    Except ServerError (Db × UpdateTaskResult) :=
  match getRequestEntryOrThrow db requestId with
  | .error e => .error e
  | .ok request =>
    match getTaskOrThrow request taskId with
    | .error e => .error e
    | .ok _task =>
      let db1 :=
        match params.status with
        | some s => (dbUpdateTaskStatus db taskId s none now).1
        | none => db
      let updates : TaskUpdates :=
        { title := params.title, description := params.description,
          priority := params.priority, type := params.type,
          dependsOn := params.dependsOn,
          environmentContext := params.environmentContext,
          artifactsGenerated := params.artifactsGenerated,
          suggestedRetryStrategy := params.suggestedRetryStrategy }
      let (db2, changedCount) := dbUpdateTask db1 taskId updates now
      if changedCount == 0 then .ok (db2, .noChanges)
      else .ok (db2, .updated)

/-- Result of deleteTask. -/
inductive DeleteTaskResult where
  | deleted (deletedCount : Nat)
deriving DecidableEq, Repr

/-- TaskManagerServer.deleteTask: collects the task and its descendants,
detaches the root from its parent, then deletes every collected id. The
dependsOn lists of surviving tasks are not touched. -/
def deleteTask (db : Db) (now requestId taskId : Nat) :
    Except ServerError (Db × DeleteTaskResult) :=
  match getRequestEntryOrThrow db requestId with
  | .error e => .error e
  | .ok request =>
    match getTaskOrThrow request taskId with
    | .error e => .error e
    | .ok task =>
      let allTasksToDelete := collectTaskWithDescendants db (treeFuel db) task
      let taskIds := allTasksToDelete.map Task.id
      let db1 :=
        match task.parentId with
        | some parentId => (dbRemoveSubtask db parentId taskId now).1
        | none => db
      let folded := taskIds.foldl
        (fun (acc : Db × Nat) i =>
          let r := dbDeleteTask acc.1 i
          (r.1, acc.2 + r.2))
        (db1, 0)
      .ok (folded.1, .deleted folded.2)

/-- Result of addDependency. -/
inductive AddDependencyResult where
  | dependencyExists
  | dependencyAdded
deriving DecidableEq, Repr

/-- TaskManagerServer.addDependency: both tasks must exist in the request;
the repository then appends the edge unless already present. There is no
self-dependency check and no cycle check on this path. -/
def addDependency (db : Db) (now requestId taskId dependsOnTaskId : Nat) :
    Except ServerError (Db × AddDependencyResult) :=
  match getRequestEntryOrThrow db requestId with
  | .error e => .error e
  | .ok request =>
    match getTaskOrThrow request taskId with
    | .error e => .error e
    | .ok _ =>
      match getTaskOrThrow request dependsOnTaskId with
      | .error e => .error e
      | .ok _ =>
        let (db1, updated) := dbAddDependency db taskId dependsOnTaskId now
        if updated == 0 then .ok (db1, .dependencyExists)
        else .ok (db1, .dependencyAdded)

/-- A new-subtask definition of split_task (SplitTaskSchema). -/
structure SubtaskDef where
  title : String
  description : String := ""
  priority : Option TaskPriority := none
  type : Option TaskType := none
  dependsOn : Option (List Nat) := none
  artifactsGenerated : Option (List String) := none
  environmentContext : Option String := none
deriving DecidableEq, Repr

/-- Result of splitTask: the original id and (id, title) of each new subtask. -/
inductive SplitTaskResult where
  | taskSplit (originalTaskId : Nat) (createdSubtasks : List (Nat × String))
deriving DecidableEq, Repr

/-- TaskManagerServer.splitTask: rejects only a done task. Creates each new
subtask pending, parented to the split task and inheriting priority, type and
environment context unless overridden. The split task's own status is never
changed (there is no split status in this backend). -/
def splitTask (db : Db) (now requestId taskIdToSplit : Nat)
    (newSubtaskDefinitions : List SubtaskDef) :
    Except ServerError (Db × SplitTaskResult) :=
  match getRequestEntryOrThrow db requestId with
  | .error e => .error e
  | .ok request =>
    match getTaskOrThrow request taskIdToSplit with
    | .error e => .error e
    | .ok taskToSplit =>
      if taskToSplit.status == .done then
        .error (.invalidOperation "Cannot split a completed task.")
      else
        let folded := newSubtaskDefinitions.foldl
          (fun (acc : Db × List (Nat × String)) subtaskDef =>
            let (dbA, subtaskId) := dbGetNextTaskId acc.1
            let subtask : Task :=
              { id := subtaskId, requestId := requestId,
                title := subtaskDef.title,
                description := subtaskDef.description,
                status := .pending,
                priority := subtaskDef.priority.getD taskToSplit.priority,
                type := match subtaskDef.type with
                        | some ty => some ty
                        | none => taskToSplit.type,
                dependsOn := subtaskDef.dependsOn.getD [],
                parentId := some taskIdToSplit,
                subtaskIds := [],
                artifactsGenerated := subtaskDef.artifactsGenerated.getD [],
                environmentContext := jsOrElseStr subtaskDef.environmentContext
                  taskToSplit.environmentContext,
                createdAt := now, updatedAt := now }
            let dbB := dbCreateTask dbA subtask requestId
            let dbC := (dbAddSubtask dbB taskIdToSplit subtaskId now).1
            (dbC, acc.2 ++ [(subtaskId, subtaskDef.title)]))
          (db, [])
        .ok (folded.1, .taskSplit taskIdToSplit folded.2)

/-- The override parameters of merge_tasks (MergeTasksSchema). -/
structure MergeOverrides where
  newTitle : Option String := none
  newDescription : Option String := none
  newPriority : Option TaskPriority := none
  newType : Option TaskType := none
  newEnvironmentContext : Option String := none
  newArtifactsGenerated : Option (List String) := none
deriving DecidableEq, Repr

/-- Result of mergeTasks. -/
inductive MergeTasksResult where
  | tasksMerged (mergedTaskId : Nat) (originalTaskIds : List Nat)
deriving DecidableEq, Repr

/-- Insertion-ordered deduplicating accumulator, modelling a JS Set. -/
def addUnique [DecidableEq α] (xs : List α) (x : α) : List α :=
  if x ∈ xs then xs else xs ++ [x]

/-- Looking up every listed task in the request, failing on the first miss,
as the validation loop of mergeTasks does. -/
def getTasksOrThrow (request : RequestView) :
    List Nat → Except ServerError (List Task)
  | [] => .ok []
  | taskId :: rest =>
    match getTaskOrThrow request taskId with
    | .error e => .error e
    | .ok t =>
      match getTasksOrThrow request rest with
      | .error e => .error e
      | .ok ts => .ok (t :: ts)

/-- TaskManagerServer.mergeTasks: validates all sources, unions dependencies
and artifacts (dropping references among the merged set), then replaces the
primary and every source with a brand-new task under a freshly generated id.
No re-parenting of the sources' subtasks and no dependsOn rewriting in other
tasks takes place. -/
def mergeTasks (db : Db) (now requestId primaryTaskId : Nat)
    (taskIdsToMerge : List Nat) (ov : MergeOverrides) :
    Except ServerError (Db × MergeTasksResult) :=
  match getRequestEntryOrThrow db requestId with
  | .error e => .error e
  | .ok request =>
    match getTaskOrThrow request primaryTaskId with
    | .error e => .error e
    | .ok primaryTask =>
      match getTasksOrThrow request taskIdsToMerge with
      | .error e => .error e
      | .ok tasksToMerge =>
        let allTaskIds := primaryTaskId :: taskIdsToMerge
        let mergedDependsOn :=
          ((primaryTask.dependsOn ++
            tasksToMerge.flatMap Task.dependsOn).foldl addUnique []).filter
            (fun d => !(allTaskIds.contains d))
        let mergedArtifacts :=
          (primaryTask.artifactsGenerated ++
            tasksToMerge.flatMap Task.artifactsGenerated).foldl addUnique []
        let (db1, mergedId) := dbGetNextTaskId db
        let mergedTask : Task :=
          { id := mergedId, requestId := requestId,
            title := jsOrDefault ov.newTitle primaryTask.title,
            description := jsOrDefault ov.newDescription primaryTask.description,
            status := .pending,
            priority := ov.newPriority.getD primaryTask.priority,
            type := match ov.newType with
                    | some ty => some ty
                    | none => primaryTask.type,
            dependsOn := mergedDependsOn,
            parentId := primaryTask.parentId,
            subtaskIds := [],
            artifactsGenerated := ov.newArtifactsGenerated.getD mergedArtifacts,
            environmentContext := jsOrElseStr ov.newEnvironmentContext
              primaryTask.environmentContext,
            createdAt := now, updatedAt := now }
        let db2 := dbMergeTasks db1 allTaskIds mergedTask requestId
        let db3 :=
          match primaryTask.parentId with
          | some parentId =>
            let dA := (dbRemoveSubtask db2 parentId primaryTaskId now).1
            (dbAddSubtask dA parentId mergedId now).1
          | none => db2
        .ok (db3, .tasksMerged mergedId allTaskIds)

/-! ### Concrete scenario states used by the claim theorems and witnesses -/

/-- A request whose live tasks form the tree R (id 1) with subtasks A (id 2)
and B (id 3), all pending. -/
def treeDb : Db :=
  { lastRequestId := 1, lastTaskId := 3,
    requests := [{ requestId := 1, originalRequest := "build the feature",
                   createdAt := 0, updatedAt := 0 }],
    tasks :=
      [{ id := 1, requestId := 1, title := "R", status := .pending,
         subtaskIds := [2, 3], createdAt := 0, updatedAt := 0 },
       { id := 2, requestId := 1, title := "A", status := .pending,
         parentId := some 1, createdAt := 1, updatedAt := 1 },
       { id := 3, requestId := 1, title := "B", status := .pending,
         parentId := some 1, createdAt := 2, updatedAt := 2 }] }

/-- A request with two pending, dependency-free, parentless tasks: the
low-priority one (id 1) created before the high-priority one (id 2). -/
def priorityDb : Db :=
  { lastRequestId := 1, lastTaskId := 2,
    requests := [{ requestId := 1, originalRequest := "two tasks",
                   createdAt := 0, updatedAt := 0 }],
    tasks :=
      [{ id := 1, requestId := 1, title := "low prio task", status := .pending,
         priority := .low, createdAt := 0, updatedAt := 0 },
       { id := 2, requestId := 1, title := "high prio task", status := .pending,
         priority := .high, createdAt := 1, updatedAt := 1 }] }

/-- A request with a single task (id 1) already done at time 5. -/
def doneDb : Db :=
  { lastRequestId := 1, lastTaskId := 1,
    requests := [{ requestId := 1, originalRequest := "one task",
                   createdAt := 0, updatedAt := 0 }],
    tasks :=
      [{ id := 1, requestId := 1, title := "finished task", status := .done,
         completedDetails := some "all good", createdAt := 0, updatedAt := 5 }] }

/-- A request with two pending tasks where task 2 already depends on task 1. -/
def depDb : Db :=
  { lastRequestId := 1, lastTaskId := 2,
    requests := [{ requestId := 1, originalRequest := "two deps",
                   createdAt := 0, updatedAt := 0 }],
    tasks :=
      [{ id := 1, requestId := 1, title := "first", status := .pending,
         createdAt := 0, updatedAt := 0 },
       { id := 2, requestId := 1, title := "second", status := .pending,
         dependsOn := [1], createdAt := 1, updatedAt := 1 }] }

/-- A request with a single pending task X (id 1), ready to be split. -/
def splitDb : Db :=
  { lastRequestId := 1, lastTaskId := 1,
    requests := [{ requestId := 1, originalRequest := "to split",
                   createdAt := 0, updatedAt := 0 }],
    tasks :=
      [{ id := 1, requestId := 1, title := "X", status := .pending,
         createdAt := 0, updatedAt := 0 }] }

/-- A request with tasks A (id 1), B (id 2, subtask C), C (id 3, child of B)
and D (id 4, depending on B). -/
def mergeDb : Db :=
  { lastRequestId := 1, lastTaskId := 4,
    requests := [{ requestId := 1, originalRequest := "to merge",
                   createdAt := 0, updatedAt := 0 }],
    tasks :=
      [{ id := 1, requestId := 1, title := "A", status := .pending,
         createdAt := 0, updatedAt := 0 },
       { id := 2, requestId := 1, title := "B", status := .pending,
         subtaskIds := [3], createdAt := 1, updatedAt := 1 },
       { id := 3, requestId := 1, title := "C", status := .pending,
         parentId := some 2, createdAt := 2, updatedAt := 2 },
       { id := 4, requestId := 1, title := "D", status := .pending,
         dependsOn := [2], createdAt := 3, updatedAt := 3 }] }

/-- The state after marking task A (id 2) of the R-A-B tree done at time 10. -/
def treeDbAfterA : Db :=
  match markTaskDone treeDb 10 1 2 none none with
  | .ok p => p.1
  | .error _ => treeDb

/-- The state after additionally marking task B (id 3) done at time 11. -/
def treeDbAfterB : Db :=
  match markTaskDone treeDbAfterA 11 1 3 none none with
  | .ok p => p.1
  | .error _ => treeDbAfterA

/-- The state after instead marking task B (id 3) failed at time 11. -/
def treeDbAfterBFailed : Db :=
  match markTaskFailed treeDbAfterA 11 1 3 none none with
  | .ok p => p.1
  | .error _ => treeDbAfterA

/-- The state after splitting task X (id 1) of splitDb into S1 and S2. -/
def splitDbAfter : Db :=
  match splitTask splitDb 7 1 1 [{ title := "S1" }, { title := "S2" }] with
  | .ok p => p.1
  | .error _ => splitDb

/-! ### Helper lemmas about the embedded operations -/

theorem mem_insertByCreatedAt {t x : Task} {l : List Task} :
    x ∈ insertByCreatedAt t l ↔ x = t ∨ x ∈ l := by
  induction l with
  | nil => simp [insertByCreatedAt]
  | cons u us ih =>
    simp only [insertByCreatedAt]
    split
    · simp only [List.mem_cons, ih]
      tauto
    · simp only [List.mem_cons]

theorem mem_sortByCreatedAt {x : Task} {l : List Task} :
    x ∈ sortByCreatedAt l ↔ x ∈ l := by
  induction l with
  | nil => simp [sortByCreatedAt]
  | cons t ts ih =>
    simp [sortByCreatedAt, mem_insertByCreatedAt, ih]

theorem mem_dbFindTasksByRequestId {db : Db} {rid : Nat} {t : Task} :
    t ∈ dbFindTasksByRequestId db rid ↔ t ∈ db.tasks ∧ t.requestId = rid := by
  simp [dbFindTasksByRequestId, mem_sortByCreatedAt, List.mem_filter]

theorem dbFindRequestById_tasks {db : Db} {rid : Nat} {rv : RequestView}
    (h : dbFindRequestById db rid = some rv) :
    rv.tasks = dbFindTasksByRequestId db rid := by
  unfold dbFindRequestById at h
  cases hfind : db.requests.find? (fun r => r.requestId == rid) with
  | none => rw [hfind] at h; exact absurd h (by simp)
  | some row =>
    rw [hfind] at h
    have h2 := Option.some.inj h
    subst h2
    rfl

theorem find?_task_id {l : List Task} {tid : Nat} {t : Task}
    (h : l.find? (fun u => u.id == tid) = some t) : t.id = tid := by
  have := List.find?_some h
  simpa using this

theorem contains_of_mem {l : List Nat} {a : Nat} (h : a ∈ l) :
    l.contains a = true := by
  induction l with
  | nil => cases h
  | cons b bs ih =>
    rw [List.contains_cons]
    rcases List.mem_cons.mp h with h | h
    · subst h; simp
    · rw [ih h, Bool.or_true]

theorem mem_cascadeClosure_mono {tasks : List Task} {fuel : Nat}
    {dead : List Nat} {i : Nat} (h : i ∈ dead) :
    i ∈ cascadeClosure tasks fuel dead := by
  induction fuel generalizing dead with
  | zero => exact h
  | succ fuel ih =>
    rw [cascadeClosure]
    split
    · exact h
    · exact ih (List.mem_append_left _ h)

theorem dbDeleteTask_subset {db : Db} {i : Nat} {t : Task}
    (h : t ∈ ((dbDeleteTask db i).1).tasks) : t ∈ db.tasks := by
  simp only [dbDeleteTask] at h
  exact (List.mem_filter.mp h).1

theorem dbDeleteTask_ne {db : Db} {i : Nat} {t : Task}
    (h : t ∈ ((dbDeleteTask db i).1).tasks) : t.id ≠ i := by
  simp only [dbDeleteTask] at h
  have hmem := (List.mem_filter.mp h).1
  have hpred := (List.mem_filter.mp h).2
  rw [Bool.not_eq_true'] at hpred
  intro hti
  have hdirect : t ∈ db.tasks.filter (fun u => u.id == i) :=
    List.mem_filter.mpr ⟨hmem, by simp [hti]⟩
  have hin : t.id ∈ cascadeClosure db.tasks db.tasks.length
      ((db.tasks.filter (fun u => u.id == i)).map Task.id) :=
    mem_cascadeClosure_mono (List.mem_map_of_mem Task.id hdirect)
  rw [contains_of_mem hin] at hpred
  exact absurd hpred (by simp)

theorem foldDelete_subset {ids : List Nat} {db : Db} {t : Task}
    (h : t ∈ ((ids.foldl (fun d i => (dbDeleteTask d i).1) db)).tasks) :
    t ∈ db.tasks := by
  induction ids generalizing db with
  | nil => simpa using h
  | cons i rest ih =>
    rw [List.foldl_cons] at h
    exact dbDeleteTask_subset (ih h)

theorem foldDelete_ne {ids : List Nat} {db : Db} {t : Task}
    (h : t ∈ ((ids.foldl (fun d i => (dbDeleteTask d i).1) db)).tasks) :
    ∀ i ∈ ids, t.id ≠ i := by
  induction ids generalizing db with
  | nil => simp
  | cons i rest ih =>
    rw [List.foldl_cons] at h
    intro j hj
    rcases List.mem_cons.mp hj with hj | hj
    · subst hj
      exact dbDeleteTask_ne (foldDelete_subset h)
    · exact ih h j hj

theorem mem_foldDeletePair {ids : List Nat} {db : Db} {n : Nat} {t : Task}
    (h : t ∈ ((ids.foldl (fun (acc : Db × Nat) i =>
        ((dbDeleteTask acc.1 i).1, acc.2 + (dbDeleteTask acc.1 i).2))
        (db, n)).1).tasks) :
    t ∈ db.tasks := by
  induction ids generalizing db n with
  | nil => simpa using h
  | cons i rest ih =>
    simp only [List.foldl_cons] at h
    exact dbDeleteTask_subset (ih h)

theorem removeSubtask_origin {db : Db} {p s now : Nat} {t' : Task}
    (h : t' ∈ ((dbRemoveSubtask db p s now).1).tasks) :
    ∃ t ∈ db.tasks, t'.id = t.id ∧ t'.dependsOn = t.dependsOn := by
  unfold dbRemoveSubtask at h
  cases hf : dbFindTaskById db p with
  | none => rw [hf] at h; exact ⟨t', h, rfl, rfl⟩
  | some parent =>
    rw [hf] at h
    dsimp only at h
    by_cases hin : s ∈ parent.subtaskIds
    · rw [if_pos hin] at h
      simp only [List.mem_map] at h
      obtain ⟨t, htmem, ht⟩ := h
      refine ⟨t, htmem, ?_, ?_⟩ <;> (rw [← ht]; split <;> rfl)
    · rw [if_neg hin] at h; exact ⟨t', h, rfl, rfl⟩

theorem addSubtask_tasks_map_id (db : Db) (p s now : Nat) :
    ((dbAddSubtask db p s now).1).tasks.map Task.id = db.tasks.map Task.id := by
  unfold dbAddSubtask
  cases hf : dbFindTaskById db p with
  | none => rfl
  | some parent =>
    dsimp only
    by_cases hin : s ∈ parent.subtaskIds
    · rw [if_pos hin]
    · rw [if_neg hin]
      simp only [List.map_map]
      apply List.map_congr_left
      intro t _
      show (if t.id == p then _ else t).id = t.id
      split <;> rfl

theorem removeSubtask_tasks_map_id (db : Db) (p s now : Nat) :
    ((dbRemoveSubtask db p s now).1).tasks.map Task.id = db.tasks.map Task.id := by
  unfold dbRemoveSubtask
  cases hf : dbFindTaskById db p with
  | none => rfl
  | some parent =>
    dsimp only
    by_cases hin : s ∈ parent.subtaskIds
    · rw [if_pos hin]
      simp only [List.map_map]
      apply List.map_congr_left
      intro t _
      show (if t.id == p then _ else t).id = t.id
      split <;> rfl
    · rw [if_neg hin]

theorem getTasksOrThrow_mem {request : RequestView} {ids : List Nat}
    {ts : List Task} (h : getTasksOrThrow request ids = .ok ts) :
    ∀ i ∈ ids, ∃ t ∈ request.tasks, t.id = i := by
  induction ids generalizing ts with
  | nil => simp
  | cons i rest ih =>
    intro j hj
    simp only [getTasksOrThrow] at h
    cases hfind : getTaskOrThrow request i with
    | error e => rw [hfind] at h; exact absurd h (by simp)
    | ok t =>
      rw [hfind] at h
      cases hrest : getTasksOrThrow request rest with
      | error e => rw [hrest] at h; exact absurd h (by simp)
      | ok ts' =>
        rcases List.mem_cons.mp hj with hj | hj
        · subst hj
          unfold getTaskOrThrow at hfind
          cases hf2 : request.tasks.find? (fun t => t.id == j) with
          | none => rw [hf2] at hfind; exact absurd hfind (by simp)
          | some t2 =>
            rw [hf2] at hfind
            exact ⟨t2, List.mem_of_find?_eq_some hf2, find?_task_id hf2⟩
        · exact ih hrest j hj

/-! ### Claim theorems -/

/-- C1: For the live tree R (id 1) with subtasks A (id 2) and B (id 3), all
initially pending: marking A done leaves R pending with nothing archived (no
cascade); subsequently marking B done does transition R to done and does set
the request's completed flag, but, contrary to the claim and to the project's
own AUTOMATIC_ARCHIVING.md Example 1, nothing is archived and all three tasks
remain in the live store: the auto-archive check reads the root's status from
the stale pre-update Task object. -/
theorem c1_done_cascade_archive_eval :
    (dbFindTaskById treeDbAfterA 1).map Task.status = some .pending ∧
    treeDbAfterA.archivedTasks = [] ∧
    markTaskDone treeDbAfterA 11 1 3 none none =
      .ok (treeDbAfterB, .doneOk
        "Task 3 marked done. Parent task 1 auto-completed. Request fully completed!") ∧
    (dbFindTaskById treeDbAfterB 1).map Task.status = some .done ∧
    treeDbAfterB.tasks.map Task.id = [1, 2, 3] ∧
    treeDbAfterB.archivedTasks = [] ∧
    (dbFindRequestById treeDbAfterB 1).map RequestView.completed = some true :=
  ⟨rfl, rfl, rfl, rfl, rfl, rfl, rfl⟩

/-- C2: In the same tree with A already done, marking B failed triggers no
cascade whatsoever, contrary to the claim and to AUTOMATIC_ARCHIVING.md
Example 3: markTaskFailed never invokes the parent-completion logic, so R
stays pending, nothing is archived and the request is not completed. -/
theorem c2_failed_triggers_no_cascade_eval :
    markTaskFailed treeDbAfterA 11 1 3 none none =
      .ok (treeDbAfterBFailed, .failedOk "Task 3 marked failed.") ∧
    (dbFindTaskById treeDbAfterBFailed 3).map Task.status = some .failed ∧
    (dbFindTaskById treeDbAfterBFailed 1).map Task.status = some .pending ∧
    treeDbAfterBFailed.tasks.map Task.id = [1, 2, 3] ∧
    treeDbAfterBFailed.archivedTasks = [] ∧
    (dbFindRequestById treeDbAfterBFailed 1).map RequestView.completed =
      some false :=
  ⟨rfl, rfl, rfl, rfl, rfl, rfl⟩

/-- C3: In a request with two pending, dependency-free, parentless tasks, the
low-priority one (id 1) created before the high-priority one (id 2),
getNextTask returns the low-priority task: the scan follows creation order
only and never consults priority, contrary to the claim and to the README's
priority-based selection. -/
theorem c3_getNextTask_ignores_priority_eval :
    getNextTask priorityDb 1 =
      .ok (.nextTask 1 "low prio task" .low none .pending) ∧
    (dbFindTaskById priorityDb 1).map Task.priority = some .low ∧
    (dbFindTaskById priorityDb 2).map Task.priority = some .high ∧
    (dbFindTaskById priorityDb 2).map Task.status = some .pending ∧
    (dbFindTaskById priorityDb 2).map Task.dependsOn = some [] :=
  ⟨rfl, rfl, rfl, rfl, rfl⟩

/-- C4: markTaskDone on a task already done returns the already-done result
before performing any write, so the returned state is the input state itself;
in particular every field of the task, including updatedAt, is unchanged. -/
theorem c4_markTaskDone_already_done_idempotent
    (db : Db) (now requestId taskId : Nat) (cd : Option String)
    (arts : Option (List String)) (rv : RequestView) (task : Task)
    (hreq : dbFindRequestById db requestId = some rv)
    (htask : rv.tasks.find? (fun t => t.id == taskId) = some task)
    (hdone : task.status = TaskStatus.done) :
    markTaskDone db now requestId taskId cd arts = .ok (db, .alreadyDone) := by
  simp [markTaskDone, getRequestEntryOrThrow, getTaskOrThrow, hreq, htask, hdone]

/-- Witness for C4 at the concrete doneDb state. -/
theorem c4_markTaskDone_already_done_idempotent_witness :
    dbFindRequestById doneDb 1 = some
      { requestId := 1, originalRequest := "one task", splitDetails := "",
        tasks := dbFindTasksByRequestId doneDb 1, completed := false,
        createdAt := 0, updatedAt := 0 } ∧
    (dbFindTasksByRequestId doneDb 1).find? (fun t => t.id == 1) =
      some { id := 1, requestId := 1, title := "finished task",
             status := .done, completedDetails := some "all good",
             createdAt := 0, updatedAt := 5 } ∧
    markTaskDone doneDb 9 1 1 none none = .ok (doneDb, .alreadyDone) :=
  ⟨rfl, rfl,
   c4_markTaskDone_already_done_idempotent doneDb 9 1 1 none none _ _
     rfl rfl rfl⟩

/-- Counterexample to C5: task 1 of doneDb is done, yet updateTask changes
its title and reports the update as successful. -/
theorem c5_terminal_update_succeeds_counterexample :
    (dbFindTaskById doneDb 1).map Task.status = some .done ∧
    (updateTask doneDb 9 1 1 { title := some "new title" }).toOption.map
      (fun p => ((dbFindTaskById p.1 1).map Task.title, p.2)) =
      some (some "new title", .updated) :=
  ⟨rfl, rfl⟩

/-- C5 amended: updateTask performs no terminal-state check; on a task whose
status is done or failed, a title update succeeds and rewrites the title of
every live task carrying that id. -/
theorem c5_updateTask_no_terminal_guard
    (db : Db) (now requestId taskId : Nat) (s : String)
    (rv : RequestView) (task : Task)
    (hreq : dbFindRequestById db requestId = some rv)
    (htask : rv.tasks.find? (fun t => t.id == taskId) = some task)
    (hterm : task.status = .done ∨ task.status = .failed) :
    ∃ db', updateTask db now requestId taskId { title := some s } =
        .ok (db', .updated) ∧
      ∀ t' ∈ db'.tasks, t'.id = taskId → t'.title = s := by
  have htasks := dbFindRequestById_tasks hreq
  have hmemrv : task ∈ rv.tasks := List.mem_of_find?_eq_some htask
  have hmem : task ∈ db.tasks :=
    (mem_dbFindTasksByRequestId.mp (htasks ▸ hmemrv)).1
  have hid : task.id = taskId := find?_task_id htask
  have hfilter : task ∈ db.tasks.filter (fun t => t.id == taskId) :=
    List.mem_filter.mpr ⟨hmem, by simp [hid]⟩
  have hlen : (db.tasks.filter (fun t => t.id == taskId)).length ≠ 0 := by
    intro h0
    rw [List.length_eq_zero] at h0
    rw [h0] at hfilter
    exact absurd hfilter (List.not_mem_nil task)
  refine ⟨{ db with tasks := db.tasks.map (fun t =>
    if t.id == taskId then applyTaskUpdates { title := some s } t now else t) },
    ?_, ?_⟩
  · simp [updateTask, getRequestEntryOrThrow, getTaskOrThrow, hreq, htask,
      dbUpdateTask, TaskUpdates.noHandledFields, hlen]
  · intro t' ht' hid'
    simp only [List.mem_map] at ht'
    obtain ⟨t, _, ht⟩ := ht'
    by_cases hcase : t.id = taskId
    · rw [if_pos (by simp [hcase])] at ht
      rw [← ht]
      rfl
    · rw [if_neg (by simp [hcase])] at ht
      rw [← ht] at hid'
      exact absurd hid' hcase

/-- Witness for C5 at the concrete doneDb state. -/
theorem c5_updateTask_no_terminal_guard_witness :
    dbFindRequestById doneDb 1 = some
      { requestId := 1, originalRequest := "one task", splitDetails := "",
        tasks := dbFindTasksByRequestId doneDb 1, completed := false,
        createdAt := 0, updatedAt := 0 } ∧
    (dbFindTasksByRequestId doneDb 1).find? (fun t => t.id == 1) =
      some { id := 1, requestId := 1, title := "finished task",
             status := .done, completedDetails := some "all good",
             createdAt := 0, updatedAt := 5 } ∧
    ∃ db', updateTask doneDb 9 1 1 { title := some "kept going" } =
        .ok (db', .updated) ∧
      ∀ t' ∈ db'.tasks, t'.id = 1 → t'.title = "kept going" :=
  ⟨rfl, rfl,
   c5_updateTask_no_terminal_guard doneDb 9 1 1 "kept going" _ _
     rfl rfl (Or.inl rfl)⟩

/-- Counterexample to C6: addDependency accepts a self-dependency (task 1 on
itself) and an immediate 2-cycle (task 1 on task 2 while task 2 already
depends on task 1), mutating the dependency graph in both cases. -/
theorem c6_addDependency_no_guard_counterexample :
    (addDependency depDb 9 1 1 1).toOption.map
      (fun p => ((dbFindTaskById p.1 1).map Task.dependsOn, p.2)) =
      some (some [1], .dependencyAdded) ∧
    (dbFindTaskById depDb 2).map Task.dependsOn = some [1] ∧
    (addDependency depDb 9 1 1 2).toOption.map
      (fun p => ((dbFindTaskById p.1 1).map Task.dependsOn, p.2)) =
      some (some [2], .dependencyAdded) :=
  ⟨rfl, rfl, rfl⟩

/-- C6 amended: addDependency performs no self-dependency and no cycle check;
whenever both tasks exist in the request and the edge is not already present
(taskId equal to dependsOnTaskId included), it appends the edge and reports
dependency_added. -/
theorem c6_addDependency_appends_unconditionally
    (db : Db) (now requestId taskId dependsOnTaskId : Nat)
    (rv : RequestView) (t1 t2 t0 : Task)
    (hreq : dbFindRequestById db requestId = some rv)
    (h1 : rv.tasks.find? (fun t => t.id == taskId) = some t1)
    (h2 : rv.tasks.find? (fun t => t.id == dependsOnTaskId) = some t2)
    (h0 : dbFindTaskById db taskId = some t0)
    (hnew : dependsOnTaskId ∉ t0.dependsOn) :
    ∃ db', addDependency db now requestId taskId dependsOnTaskId =
        .ok (db', .dependencyAdded) ∧
      ∀ t' ∈ db'.tasks, t'.id = taskId →
        t'.dependsOn = t0.dependsOn ++ [dependsOnTaskId] := by
  have hmem : t0 ∈ db.tasks := List.mem_of_find?_eq_some h0
  have hid : t0.id = taskId := find?_task_id h0
  have hfilter : t0 ∈ db.tasks.filter (fun t => t.id == taskId) :=
    List.mem_filter.mpr ⟨hmem, by simp [hid]⟩
  have hlen : (db.tasks.filter (fun t => t.id == taskId)).length ≠ 0 := by
    intro hz
    rw [List.length_eq_zero] at hz
    rw [hz] at hfilter
    exact absurd hfilter (List.not_mem_nil t0)
  refine ⟨{ db with tasks := db.tasks.map (fun t =>
    if t.id == taskId then
      { t with dependsOn := t0.dependsOn ++ [dependsOnTaskId], updatedAt := now }
    else t) }, ?_, ?_⟩
  · simp [addDependency, getRequestEntryOrThrow, getTaskOrThrow, hreq, h1, h2,
      dbAddDependency, h0, hnew, hlen]
  · intro t' ht' hid'
    simp only [List.mem_map] at ht'
    obtain ⟨t, _, ht⟩ := ht'
    by_cases hcase : t.id = taskId
    · rw [if_pos (by simp [hcase])] at ht
      rw [← ht]
    · rw [if_neg (by simp [hcase])] at ht
      rw [← ht] at hid'
      exact absurd hid' hcase

/-- Counterexample to C7: splitting the pending task X (id 1) of splitDb into
S1 and S2 leaves X's status pending (there is no split status in this
backend), and a subsequent markTaskDone(X) succeeds with a done result
instead of failing with InvalidOperation. -/
theorem c7_split_then_done_counterexample :
    splitTask splitDb 7 1 1 [{ title := "S1" }, { title := "S2" }] =
      .ok (splitDbAfter, .taskSplit 1 [(2, "S1"), (3, "S2")]) ∧
    (dbFindTaskById splitDbAfter 1).map Task.status = some .pending ∧
    (dbFindTaskById splitDbAfter 2).map (fun t => (t.status, t.parentId)) =
      some (.pending, some 1) ∧
    (dbFindTaskById splitDbAfter 3).map (fun t => (t.status, t.parentId)) =
      some (.pending, some 1) ∧
    (dbFindTaskById splitDbAfter 1).map Task.subtaskIds = some [2, 3] ∧
    (markTaskDone splitDbAfter 8 1 1 none none).toOption.map
      (fun p => ((dbFindTaskById p.1 1).map Task.status, p.2)) =
      some (some .done, .doneOk "Task 1 marked done.") :=
  ⟨rfl, rfl, rfl, rfl, rfl, rfl⟩

/-- C7 amended: for arbitrary subtask definitions d1 and d2, splitTask on the
pending, parentless, leaf task X (id 1) succeeds; the two subtasks are
created pending, parented to X and recorded in X's subtaskIds; X's own
status is unchanged (pending — no split status exists), and a subsequent
markTaskDone(X) succeeds rather than failing with InvalidOperation. -/
theorem c7_splitTask_amended (d1 d2 : SubtaskDef) :
    ∃ db', splitTask splitDb 7 1 1 [d1, d2] =
        .ok (db', .taskSplit 1 [(2, d1.title), (3, d2.title)]) ∧
      (∃ s1, dbFindTaskById db' 2 = some s1 ∧ s1.status = .pending ∧
        s1.parentId = some 1 ∧ s1.title = d1.title) ∧
      (∃ s2, dbFindTaskById db' 3 = some s2 ∧ s2.status = .pending ∧
        s2.parentId = some 1 ∧ s2.title = d2.title) ∧
      (∃ x', dbFindTaskById db' 1 = some x' ∧ x'.status = .pending ∧
        x'.subtaskIds = [2, 3]) ∧
      (∃ db2 msg, markTaskDone db' 8 1 1 none none = .ok (db2, .doneOk msg)) :=
  ⟨_, rfl, ⟨_, rfl, rfl, rfl, rfl⟩, ⟨_, rfl, rfl, rfl, rfl⟩,
   ⟨_, rfl, rfl, rfl⟩, ⟨_, _, rfl⟩⟩

/-- Witness for C7 instantiated at two concrete subtask definitions. -/
theorem c7_splitTask_amended_witness :
    ∃ db', splitTask splitDb 7 1 1
        [{ title := "write tests" }, { title := "write docs" }] =
        .ok (db', .taskSplit 1 [(2, "write tests"), (3, "write docs")]) ∧
      (∃ s1, dbFindTaskById db' 2 = some s1 ∧ s1.status = .pending ∧
        s1.parentId = some 1 ∧ s1.title = "write tests") ∧
      (∃ s2, dbFindTaskById db' 3 = some s2 ∧ s2.status = .pending ∧
        s2.parentId = some 1 ∧ s2.title = "write docs") ∧
      (∃ x', dbFindTaskById db' 1 = some x' ∧ x'.status = .pending ∧
        x'.subtaskIds = [2, 3]) ∧
      (∃ db2 msg, markTaskDone db' 8 1 1 none none = .ok (db2, .doneOk msg)) :=
  c7_splitTask_amended { title := "write tests" } { title := "write docs" }

/-- Counterexample to C8: deleting task 1 of depDb leaves the surviving task
2 still depending on the removed id 1. -/
theorem c8_dangling_dependency_counterexample :
    (deleteTask depDb 9 1 1).toOption.map
      (fun p => (p.1.tasks.map Task.id, p.1.tasks.map Task.dependsOn)) =
      some ([2], [[1]]) :=
  rfl

/-- C8 amended: deleteTask removes the task and its descendants (and detaches
the root from its parent's subtaskIds) but never rewrites any surviving
task's dependsOn list, so ids of removed tasks are left dangling in
survivors. -/
theorem c8_deleteTask_preserves_dependsOn
    (db : Db) (now requestId taskId : Nat) (rv : RequestView) (task : Task)
    (hreq : dbFindRequestById db requestId = some rv)
    (htask : rv.tasks.find? (fun t => t.id == taskId) = some task) :
    ∃ db' r, deleteTask db now requestId taskId = .ok (db', r) ∧
      ∀ t' ∈ db'.tasks, ∃ t ∈ db.tasks,
        t'.id = t.id ∧ t'.dependsOn = t.dependsOn := by
  simp only [deleteTask, getRequestEntryOrThrow, getTaskOrThrow, hreq, htask]
  refine ⟨_, _, rfl, ?_⟩
  intro t' ht'
  have h2 := mem_foldDeletePair ht'
  cases hpp : task.parentId with
  | none =>
    rw [hpp] at h2
    exact ⟨t', h2, rfl, rfl⟩
  | some p =>
    rw [hpp] at h2
    exact removeSubtask_origin h2

/-- Witness for C8: deleting task 1 of depDb. -/
theorem c8_deleteTask_preserves_dependsOn_witness :
    dbFindRequestById depDb 1 = some
      { requestId := 1, originalRequest := "two deps", splitDetails := "",
        tasks := dbFindTasksByRequestId depDb 1, completed := false,
        createdAt := 0, updatedAt := 0 } ∧
    (dbFindTasksByRequestId depDb 1).find? (fun t => t.id == 1) =
      some { id := 1, requestId := 1, title := "first", status := .pending,
             createdAt := 0, updatedAt := 0 } ∧
    ∃ db' r, deleteTask depDb 9 1 1 = .ok (db', r) ∧
      ∀ t' ∈ db'.tasks, ∃ t ∈ depDb.tasks,
        t'.id = t.id ∧ t'.dependsOn = t.dependsOn :=
  ⟨rfl, rfl, c8_deleteTask_preserves_dependsOn depDb 9 1 1 _ _ rfl rfl⟩

/-- Counterexample to C9: mergeTasks(A, [B]) on mergeDb deletes A (id 1)
itself — so C can never end up parented to A and A has no subtaskIds — and
deleting B (id 2) cascade-deletes its subtask C (id 3) through the parentId
foreign key, so C does not survive at all; D (id 4) keeps its dangling
dependency on the deleted B instead of being rewritten to depend on A, and
the merged replacement (id 5) adopts no subtasks. -/
theorem c9_merge_counterexample :
    (mergeTasks mergeDb 9 1 1 [2] {}).toOption.map
      (fun p => (p.1.tasks.map Task.id,
        dbFindTaskById p.1 1,
        dbFindTaskById p.1 3,
        (dbFindTaskById p.1 4).map Task.dependsOn,
        (dbFindTaskById p.1 5).map Task.subtaskIds, p.2)) =
      some ([4, 5], none, none, some [2], some [],
        .tasksMerged 5 [1, 2]) :=
  rfl

/-- C9 amended: after mergeTasks(A, [B]) on the mergeDb state where B has
subtask C and D depends on B, for arbitrary override parameters: A and B are
both deleted and replaced by a brand-new merged task (id 5) with an empty
subtaskIds list; C does not survive either — the parentId ON DELETE CASCADE
removes it together with B, so in particular it is never re-parented to A,
which itself no longer exists — and D keeps its dangling dependency on the
deleted B (no dependsOn rewriting takes place). -/
theorem c9_mergeTasks_amended (ov : MergeOverrides) :
    ∃ db', mergeTasks mergeDb 9 1 1 [2] ov =
        .ok (db', .tasksMerged 5 [1, 2]) ∧
      db'.tasks.map Task.id = [4, 5] ∧
      dbFindTaskById db' 1 = none ∧
      dbFindTaskById db' 2 = none ∧
      dbFindTaskById db' 3 = none ∧
      (dbFindTaskById db' 4).map Task.dependsOn = some [2] ∧
      (dbFindTaskById db' 5).map Task.subtaskIds = some [] :=
  ⟨_, rfl, rfl, rfl, rfl, rfl, rfl, rfl⟩

/-- Witness for C9 instantiated at a concrete override object. -/
theorem c9_mergeTasks_amended_witness :
    ∃ db', mergeTasks mergeDb 9 1 1 [2] { newDescription := some "joined" } =
        .ok (db', .tasksMerged 5 [1, 2]) ∧
      db'.tasks.map Task.id = [4, 5] ∧
      dbFindTaskById db' 1 = none ∧
      dbFindTaskById db' 2 = none ∧
      dbFindTaskById db' 3 = none ∧
      (dbFindTaskById db' 4).map Task.dependsOn = some [2] ∧
      (dbFindTaskById db' 5).map Task.subtaskIds = some [] :=
  c9_mergeTasks_amended { newDescription := some "joined" }

/-- C10: mergeTasks always replaces the primary and the merged tasks by a
brand-new task under the freshly generated id lastTaskId + 1: afterwards no
live task carries the primary id or any merged id, and the returned merged id
differs from the primary id. -/
theorem c10_mergeTasks_fresh_id
    (db : Db) (now requestId primaryTaskId : Nat) (taskIdsToMerge : List Nat)
    (ov : MergeOverrides) (rv : RequestView) (primaryTask : Task)
    (tasksToMerge : List Task)
    (hreq : dbFindRequestById db requestId = some rv)
    (hprim : rv.tasks.find? (fun t => t.id == primaryTaskId) = some primaryTask)
    (hsrcs : getTasksOrThrow rv taskIdsToMerge = .ok tasksToMerge)
    (hbound : ∀ t ∈ db.tasks, t.id ≤ db.lastTaskId) :
    ∃ db', mergeTasks db now requestId primaryTaskId taskIdsToMerge ov =
        .ok (db', .tasksMerged (db.lastTaskId + 1)
          (primaryTaskId :: taskIdsToMerge)) ∧
      db.lastTaskId + 1 ≠ primaryTaskId ∧
      ∀ t' ∈ db'.tasks, ∀ i ∈ primaryTaskId :: taskIdsToMerge, t'.id ≠ i := by
  have htasks := dbFindRequestById_tasks hreq
  have hprimmem : primaryTask ∈ db.tasks :=
    (mem_dbFindTasksByRequestId.mp
      (htasks ▸ List.mem_of_find?_eq_some hprim)).1
  have hpid : primaryTask.id = primaryTaskId := find?_task_id hprim
  have hple : primaryTaskId ≤ db.lastTaskId := hpid ▸ hbound _ hprimmem
  have hne : db.lastTaskId + 1 ≠ primaryTaskId := by omega
  have hidsle : ∀ i ∈ primaryTaskId :: taskIdsToMerge, i ≤ db.lastTaskId := by
    intro i hi
    rcases List.mem_cons.mp hi with h | h
    · subst h; exact hple
    · obtain ⟨t, htm, hti⟩ := getTasksOrThrow_mem hsrcs i h
      have hmem : t ∈ db.tasks :=
        (mem_dbFindTasksByRequestId.mp (htasks ▸ htm)).1
      exact hti ▸ hbound _ hmem
  cases hpp : primaryTask.parentId with
  | none =>
    simp only [mergeTasks, getRequestEntryOrThrow, getTaskOrThrow, hreq, hprim,
      hsrcs, hpp, dbGetNextTaskId, dbMergeTasks, dbCreateTask]
    refine ⟨_, rfl, hne, ?_⟩
    intro t' ht' i hi
    dsimp only at ht'
    rcases List.mem_append.mp ht' with h | h
    · exact foldDelete_ne h i hi
    · have ht'' := List.mem_singleton.mp h
      subst ht''
      intro hti
      dsimp only at hti
      have := hidsle i hi
      omega
  | some p =>
    simp only [mergeTasks, getRequestEntryOrThrow, getTaskOrThrow, hreq, hprim,
      hsrcs, hpp, dbGetNextTaskId]
    refine ⟨_, rfl, hne, ?_⟩
    intro t' ht' i hi hti
    have hmapmem := List.mem_map_of_mem Task.id ht'
    rw [addSubtask_tasks_map_id, removeSubtask_tasks_map_id] at hmapmem
    simp only [dbMergeTasks, dbCreateTask] at hmapmem
    rw [List.map_append, List.mem_append] at hmapmem
    rcases hmapmem with h | h
    · obtain ⟨u, hu, hui⟩ := List.mem_map.mp h
      exact absurd hti (hui ▸ foldDelete_ne hu i hi)
    · simp only [List.map_cons, List.map_nil, List.mem_singleton] at h
      have := hidsle i hi
      rw [hti] at h
      omega

/-- Witness for C10 at the concrete mergeDb state. -/
theorem c10_mergeTasks_fresh_id_witness :
    (dbFindTasksByRequestId mergeDb 1).find? (fun t => t.id == 1) =
      some { id := 1, requestId := 1, title := "A", status := .pending,
             createdAt := 0, updatedAt := 0 } ∧
    (∀ t ∈ mergeDb.tasks, t.id ≤ mergeDb.lastTaskId) ∧
    (∃ db', mergeTasks mergeDb 9 1 1 [2] { newTitle := some "AB" } =
        .ok (db', .tasksMerged (mergeDb.lastTaskId + 1) [1, 2]) ∧
      mergeDb.lastTaskId + 1 ≠ 1 ∧
      ∀ t' ∈ db'.tasks, ∀ i ∈ [1, 2], t'.id ≠ i) :=
  ⟨rfl, by decide,
   c10_mergeTasks_fresh_id mergeDb 9 1 1 [2] { newTitle := some "AB" } _ _ _
     rfl rfl rfl (by decide)⟩

/-- Witness for C6: a fresh edge between the two distinct tasks of depDb. -/
theorem c6_addDependency_appends_unconditionally_witness :
    dbFindRequestById depDb 1 = some
      { requestId := 1, originalRequest := "two deps", splitDetails := "",
        tasks := dbFindTasksByRequestId depDb 1, completed := false,
        createdAt := 0, updatedAt := 0 } ∧
    dbFindTaskById depDb 1 =
      some { id := 1, requestId := 1, title := "first", status := .pending,
             createdAt := 0, updatedAt := 0 } ∧
    (1 : Nat) ∉ ([] : List Nat) ∧
    ∃ db', addDependency depDb 9 1 1 1 = .ok (db', .dependencyAdded) ∧
      ∀ t' ∈ db'.tasks, t'.id = 1 → t'.dependsOn = [] ++ [1] :=
  ⟨rfl, rfl, by simp,
   c6_addDependency_appends_unconditionally depDb 9 1 1 1 _ _ _ _
     rfl rfl rfl rfl (by simp)⟩

end MetaMind
